import Mathlib

/-!
Verification of the multi-tier performance cache of
`generate_content/performance_cache.py` (PPT-generation service).

The Python module is shallowly embedded below:

* `generateCacheKey` models `PerformanceCache._generate_cache_key`
  (JSON canonical serialization with sorted mapping keys, SHA-256,
  first 16 hex characters, namespace prefix);
* `PCache` models the mutable state of a `PerformanceCache` instance
  (memory tier map, statistics, running size counter, persistent-tier
  files, shared Django tier contents);
* `setMemoryCache`, `evictMemoryCache`, `getOp`, `setOp`, `deleteOp`,
  `clearNamespace`, `cleanupExpired` model the corresponding methods;
* `cachedWrapper` models the `cached` decorator.

Sizes measured by `pickle.dumps` are abstracted by an explicit size
function `sz : α → Nat`; the shared tier's and the file system's
availability (Python exceptions raised by `django.core.cache` / `open`)
are abstracted by explicit boolean parameters.  Logical time replaces
`datetime.now()`: every operation receives the current instant as a
natural number.
-/

/-! ### Hexadecimal strings -/

def hexChar (n : Nat) : Char := Nat.digitChar (n % 16)

def isHexChar (c : Char) : Bool :=
  decide (('0' ≤ c ∧ c ≤ '9') ∨ ('a' ≤ c ∧ c ≤ 'f'))

/-- Big-endian fixed-width hexadecimal rendering of a natural number,
modelling `hexdigest` output formatting. -/
def toHexW : Nat → Nat → List Char
  | 0, _ => []
  | w + 1, n => toHexW w (n / 16) ++ [hexChar n]

/-! ### SHA-256 over byte lists (models `hashlib.sha256`) -/

def M32 : Nat := 4294967296

def rotr32 (x n : Nat) : Nat := ((x >>> n) ||| (x <<< (32 - n))) % M32

def smallSigma0 (x : Nat) : Nat := rotr32 x 7 ^^^ rotr32 x 18 ^^^ (x >>> 3)

def smallSigma1 (x : Nat) : Nat := rotr32 x 17 ^^^ rotr32 x 19 ^^^ (x >>> 10)

def bigSigma0 (x : Nat) : Nat := rotr32 x 2 ^^^ rotr32 x 13 ^^^ rotr32 x 22

def bigSigma1 (x : Nat) : Nat := rotr32 x 6 ^^^ rotr32 x 11 ^^^ rotr32 x 25

def chFn (x y z : Nat) : Nat := (x &&& y) ^^^ ((x ^^^ 4294967295) &&& z)

def majFn (x y z : Nat) : Nat := (x &&& y) ^^^ (x &&& z) ^^^ (y &&& z)

def shaK : List Nat :=
  [1116352408, 1899447441, 3049323471, 3921009573, 961987163,
   1508970993, 2453635748, 2870763221, 3624381080, 310598401,
   607225278, 1426881987, 1925078388, 2162078206, 2614888103,
   3248222580, 3835390401, 4022224774, 264347078, 604807628,
   770255983, 1249150122, 1555081692, 1996064986, 2554220882,
   2821834349, 2952996808, 3210313671, 3336571891, 3584528711,
   113926993, 338241895, 666307205, 773529912, 1294757372,
   1396182291, 1695183700, 1986661051, 2177026350, 2456956037,
   2730485921, 2820302411, 3259730800, 3345764771, 3516065817,
   3600352804, 4094571909, 275423344, 430227734, 506948616,
   659060556, 883997877, 958139571, 1322822218, 1537002063,
   1747873779, 1955562222, 2024104815, 2227730452, 2361852424,
   2428436474, 2756734187, 3204031479, 3329325298]

structure Digest where
  d0 : Nat
  d1 : Nat
  d2 : Nat
  d3 : Nat
  d4 : Nat
  d5 : Nat
  d6 : Nat
  d7 : Nat

def initDigest : Digest :=
  ⟨1779033703, 3144134277, 1013904242, 2773480762,
   1359893119, 2600822924, 528734635, 1541459225⟩

/-- Fuel-driven list chunking (structural, so the kernel can reduce it). -/
def chunksGo (n : Nat) : Nat → List Nat → List (List Nat)
  | 0, _ => []
  | _ + 1, [] => []
  | fuel + 1, x :: xs => (x :: xs).take n :: chunksGo n fuel ((x :: xs).drop n)

def chunksOf (n : Nat) (l : List Nat) : List (List Nat) := chunksGo n l.length l

def wordOfBytes (bs : List Nat) : Nat := bs.foldl (fun acc b => acc * 256 + b) 0

def toBytesBE : Nat → Nat → List Nat
  | 0, _ => []
  | w + 1, n => toBytesBE w (n / 256) ++ [n % 256]

/-- One message-schedule extension step; `rs` holds the schedule so far,
most recent word first. -/
def nextWord (rs : List Nat) : Nat :=
  (rs.getD 15 0 + smallSigma0 (rs.getD 14 0) + rs.getD 6 0 + smallSigma1 (rs.getD 1 0)) % M32

def extendLoop : Nat → List Nat → List Nat
  | 0, rs => rs
  | n + 1, rs => extendLoop n (nextWord rs :: rs)

def scheduleOf (chunk : List Nat) : List Nat :=
  (extendLoop 48 ((chunksOf 4 chunk).map wordOfBytes).reverse).reverse

structure Regs where
  ra : Nat
  rb : Nat
  rc : Nat
  rd : Nat
  re : Nat
  rf : Nat
  rg : Nat
  rh : Nat

def roundStep (r : Regs) (kw : Nat × Nat) : Regs :=
  let t1 := (r.rh + bigSigma1 r.re + chFn r.re r.rf r.rg + kw.1 + kw.2) % M32
  let t2 := (bigSigma0 r.ra + majFn r.ra r.rb r.rc) % M32
  ⟨(t1 + t2) % M32, r.ra, r.rb, r.rc, (r.rd + t1) % M32, r.re, r.rf, r.rg⟩

def compressChunk (d : Digest) (chunk : List Nat) : Digest :=
  let ws := scheduleOf chunk
  let r := (shaK.zip ws).foldl roundStep ⟨d.d0, d.d1, d.d2, d.d3, d.d4, d.d5, d.d6, d.d7⟩
  ⟨(d.d0 + r.ra) % M32, (d.d1 + r.rb) % M32, (d.d2 + r.rc) % M32, (d.d3 + r.rd) % M32,
   (d.d4 + r.re) % M32, (d.d5 + r.rf) % M32, (d.d6 + r.rg) % M32, (d.d7 + r.rh) % M32⟩

def sha256Bytes (msg : List Nat) : Digest :=
  let l := msg.length
  let padded := msg ++ 0x80 :: List.replicate ((64 - (l + 9) % 64) % 64) 0 ++ toBytesBE 8 (l * 8)
  (chunksOf 64 padded).foldl compressChunk initDigest

def hexOfDigest (d : Digest) : List Char :=
  toHexW 8 d.d0 ++ toHexW 8 d.d1 ++ toHexW 8 d.d2 ++ toHexW 8 d.d3 ++
  toHexW 8 d.d4 ++ toHexW 8 d.d5 ++ toHexW 8 d.d6 ++ toHexW 8 d.d7

/-- UTF-8 encoding of one character, modelling Python `str.encode()`. -/
def utf8Bytes (c : Char) : List Nat :=
  let n := c.toNat
  if n < 128 then [n]
  else if n < 2048 then [192 + n / 64, 128 + n % 64]
  else if n < 65536 then [224 + n / 4096, 128 + (n / 64) % 64, 128 + n % 64]
  else [240 + n / 262144, 128 + (n / 4096) % 64, 128 + (n / 64) % 64, 128 + n % 64]

def strBytes (s : String) : List Nat := (s.data.map utf8Bytes).flatten

def sha256HexOfStr (s : String) : List Char := hexOfDigest (sha256Bytes (strBytes s))

/-! ### JSON values and `json.dumps(..., sort_keys=True)` -/

inductive Json where
  | null : Json
  | bool : Bool → Json
  | num : Int → Json
  | str : String → Json
  | arr : List Json → Json
  | obj : List (String × Json) → Json

/-- Comparison of object items by key, as used by the sorted serialization.
Python dict keys are unique, so comparing by key alone matches Python's
`sorted(dct.items())`. -/
def pairLe (a b : String × Json) : Prop := a.1 ≤ b.1

instance : DecidableRel pairLe :=
  fun a b => inferInstanceAs (Decidable (a.1 ≤ b.1))

instance : IsTotal (String × Json) pairLe := ⟨fun a b => le_total a.1 b.1⟩

instance : IsTrans (String × Json) pairLe := ⟨fun _ _ _ h1 h2 => le_trans h1 h2⟩

def sortPairs (l : List (String × Json)) : List (String × Json) := List.insertionSort pairLe l

mutual

/-- Recursively sort every object's items by key (the `sort_keys=True`
canonicalization applied by `json.dumps`). -/
def Json.canon : Json → Json
  | .null => .null
  | .bool b => .bool b
  | .num n => .num n
  | .str s => .str s
  | .arr xs => .arr (canonList xs)
  | .obj kvs => .obj (sortPairs (canonPairs kvs))

def canonList : List Json → List Json
  | [] => []
  | x :: xs => x.canon :: canonList xs

def canonPairs : List (String × Json) → List (String × Json)
  | [] => []
  | (k, v) :: xs => (k, v.canon) :: canonPairs xs

end

/-- JSON string escaping (Python `json.dumps` with its default
`ensure_ascii=True`). -/
def escapeChar (c : Char) : String :=
  if c = '"' then "\\\""
  else if c = '\\' then "\\\\"
  else if c = '\n' then "\\n"
  else if c = '\t' then "\\t"
  else if c = '\r' then "\\r"
  else if c.toNat < 32 || c.toNat > 126 then "\\u" ++ String.mk (toHexW 4 c.toNat)
  else String.singleton c

def dumpString (s : String) : String :=
  "\"" ++ String.join (s.data.map escapeChar) ++ "\""

mutual

/-- Plain JSON serialization with Python's default separators; applied
after `Json.canon`, the composition models
`json.dumps(key_data, sort_keys=True)`. -/
def dumpJson : Json → String
  | .null => "null"
  | .bool b => if b then "true" else "false"
  | .num n => toString n
  | .str s => dumpString s
  | .arr xs => "[" ++ dumpArr xs ++ "]"
  | .obj kvs => "\x7b" ++ dumpObj kvs ++ "\x7d"

def dumpArr : List Json → String
  | [] => ""
  | [x] => dumpJson x
  | x :: y :: rest => dumpJson x ++ ", " ++ dumpArr (y :: rest)

def dumpObj : List (String × Json) → String
  | [] => ""
  | [(k, v)] => dumpString k ++ ": " ++ dumpJson v
  | (k, v) :: p :: rest => dumpString k ++ ": " ++ dumpJson v ++ ", " ++ dumpObj (p :: rest)

end

/-! ### Cache keys (`PerformanceCache._generate_cache_key`) -/

/-- `key_data: Union[str, Dict, List]` of `_generate_cache_key`. -/
inductive KeyData where
  | str : String → KeyData
  | dict : List (String × Json) → KeyData
  | list : List Json → KeyData

/-- `key_string`: a raw string is used as is, containers go through
`json.dumps(key_data, sort_keys=True)`. -/
def keyString : KeyData → String
  | .str s => s
  | .dict kvs => dumpJson (Json.canon (.obj kvs))
  | .list xs => dumpJson (Json.canon (.arr xs))

/-- `hashlib.sha256(key_string.encode()).hexdigest()[:16]`. -/
def keyHash (kd : KeyData) : String :=
  String.mk ((sha256HexOfStr (keyString kd)).take 16)

/-- `PerformanceCache._generate_cache_key`: `f"{namespace}:{key_hash}"`. -/
def generateCacheKey (ns : String) (kd : KeyData) : String :=
  ns ++ ":" ++ keyHash kd

/-! ### Cache data model -/

/-- `CacheEntry` dataclass. `created_at`/`accessed_at` are logical
instants (`datetime`), `size_bytes` the measured serialized footprint. -/
structure CacheEntry (α : Type) where
  data : α
  created_at : Nat
  accessed_at : Nat
  access_count : Nat
  ttl : Nat
  size_bytes : Nat
  cache_key : String

/-- `CacheEntry.is_expired`: `datetime.now() > created_at + timedelta(seconds=ttl)`. -/
def CacheEntry.isExpired (e : CacheEntry α) (now : Nat) : Bool :=
  decide (e.created_at + e.ttl < now)

/-- `CacheEntry.update_access`. -/
def CacheEntry.updateAccess (e : CacheEntry α) (now : Nat) : CacheEntry α :=
  { e with accessed_at := now, access_count := e.access_count + 1 }

/-- The `cache_stats` counter dictionary. -/
structure Stats where
  hits : Nat
  misses : Nat
  memory_hits : Nat
  django_hits : Nat
  file_hits : Nat
  evictions : Nat

def Stats.zero : Stats := ⟨0, 0, 0, 0, 0, 0⟩

/-- State of one `PerformanceCache` instance.  `memory_cache` is the
insertion-ordered Python dict; `files` maps a persistent-tier file name
to the pickled entry it holds; `django` is the shared tier's contents. -/
structure PCache (α : Type) where
  memory_cache : List (String × CacheEntry α)
  cache_stats : Stats
  current_memory_size : Int
  files : List (String × CacheEntry α)
  django : List (String × α)

/-- `self.max_memory_size = 100 * 1024 * 1024`. -/
def maxMemorySize : Nat := 100 * 1024 * 1024

/-- `self.cache_config[namespace]['ttl']`, falling back to 3600
(`config.get('ttl', 3600)` on the empty dict for unknown namespaces). -/
def configTtl (ns : String) : Nat :=
  if ns = "gemini_responses" then 3600
  else if ns = "template_data" then 86400
  else if ns = "presentation_metadata" then 7200
  else if ns = "user_preferences" then 3600
  else if ns = "font_validation" then 86400
  else 3600

/-- `self.cache_config[namespace]['max_size']`, falling back to
`10 * 1024 * 1024` (`config.get('max_size', 10 * 1024 * 1024)`). -/
def configMaxSize (ns : String) : Nat :=
  if ns = "gemini_responses" then 50 * 1024 * 1024
  else if ns = "template_data" then 10 * 1024 * 1024
  else if ns = "presentation_metadata" then 5 * 1024 * 1024
  else if ns = "user_preferences" then 1 * 1024 * 1024
  else if ns = "font_validation" then 1024 * 1024
  else 10 * 1024 * 1024

/-- Dictionary read: the value stored under a key, if any. -/
def findPair {β : Type} : List (String × β) → String → Option β
  | [], _ => none
  | (k1, v) :: rest, k => if k1 = k then some v else findPair rest k

/-- Dictionary write `d[k] = v`: replaces in place, else appends
(Python dicts preserve insertion order). -/
def setPair {β : Type} : List (String × β) → String → β → List (String × β)
  | [], k, v => [(k, v)]
  | (k1, v1) :: rest, k, v =>
    if k1 = k then (k, v) :: rest else (k1, v1) :: setPair rest k v

/-- Dictionary deletion `del d[k]`. -/
def dropKey {β : Type} (l : List (String × β)) (k : String) : List (String × β) :=
  l.filter fun p => !(p.1 == k)

/-- Deletion of every key in `ks`. -/
def dropKeys {β : Type} (l : List (String × β)) (ks : List String) : List (String × β) :=
  l.filter fun p => !(ks.contains p.1)

/-- Sum of `size_bytes` over a list of resident entries. -/
def sumSizes (l : List (String × CacheEntry α)) : Nat :=
  (l.map fun p => p.2.size_bytes).sum

/-- LRU comparison used by `sorted(self.memory_cache.items(),
key=lambda x: x[1].accessed_at)`. -/
def accLe (a b : String × CacheEntry α) : Prop :=
  a.2.accessed_at ≤ b.2.accessed_at

instance : DecidableRel (accLe (α := α)) :=
  fun a b => inferInstanceAs (Decidable (a.2.accessed_at ≤ b.2.accessed_at))

instance : IsTotal (String × CacheEntry α) accLe := ⟨fun _ _ => Nat.le_total _ _⟩

instance : IsTrans (String × CacheEntry α) accLe := ⟨fun _ _ _ h1 h2 => Nat.le_trans h1 h2⟩

/-- The loop body of `_evict_memory_cache`: walk the LRU-sorted items,
stopping as soon as `freed_size >= required_size`; returns the removed
items in removal order. -/
def evictFrom (required : Nat) (freed : Nat) : List (String × CacheEntry α) → List (String × CacheEntry α)
  | [] => []
  | kv :: rest =>
    if required ≤ freed then []
    else kv :: evictFrom required (freed + kv.2.size_bytes) rest

/-- `PerformanceCache._evict_memory_cache`. -/
def evictMemoryCache (c : PCache α) (required : Nat) : PCache α :=
  match c.memory_cache with
  | [] => c
  | _ :: _ =>
    let sorted := List.insertionSort accLe c.memory_cache
    let removed := evictFrom required 0 sorted
    { c with
      memory_cache := dropKeys c.memory_cache (removed.map Prod.fst)
      current_memory_size := c.current_memory_size - (sumSizes removed : Int)
      cache_stats := { c.cache_stats with evictions := c.cache_stats.evictions + removed.length } }

/-- `PerformanceCache._set_memory_cache` (with `sz` standing for
`_calculate_size`, i.e. `len(pickle.dumps(data))`). -/
def setMemoryCache (sz : α → Nat) (c : PCache α) (key : String) (d : α)
    (ns : String) (ttl : Nat) (now : Nat) : Bool × PCache α :=
  let dataSize := sz d
  let maxSize := configMaxSize ns
  if dataSize > maxSize then (false, c)
  else
    let c1 := if c.current_memory_size + (dataSize : Int) > (maxMemorySize : Int)
      then evictMemoryCache c dataSize else c
    let e : CacheEntry α :=
      { data := d, created_at := now, accessed_at := now, access_count := 0,
        ttl := ttl, size_bytes := dataSize, cache_key := key }
    (true, { c1 with
      memory_cache := setPair c1.memory_cache key e
      current_memory_size := c1.current_memory_size + (dataSize : Int) })

/-- `PerformanceCache._set_django_cache`; `up` is false when
`cache.set` raises (network failure), which the method catches. -/
def setDjangoCache (c : PCache α) (key : String) (d : α) (up : Bool) : Bool × PCache α :=
  if up then (true, { c with django := setPair c.django key d })
  else (false, c)

/-- `PerformanceCache._set_file_cache`; `ok` is false when `open` or
`pickle.dump` raises.  The written entry carries the default
`size_bytes = 0` and `access_count = 0`. -/
def setFileCache (c : PCache α) (key : String) (d : α) (ttl : Nat) (now : Nat)
    (ok : Bool) : Bool × PCache α :=
  if ok then
    let e : CacheEntry α :=
      { data := d, created_at := now, accessed_at := now, access_count := 0,
        ttl := ttl, size_bytes := 0, cache_key := key }
    (true, { c with files := setPair c.files (key ++ ".pkl") e })
  else (false, c)

/-- `PerformanceCache.set`: derive the key, resolve the TTL from the
namespace config when unspecified, then write through all three tiers,
and-ing the three results. -/
def setOp (sz : α → Nat) (c : PCache α) (now : Nat) (ns : String) (kd : KeyData)
    (d : α) (ttlOpt : Option Nat) (djangoUp fileOk : Bool) : Bool × PCache α :=
  let key := generateCacheKey ns kd
  let ttl := ttlOpt.getD (configTtl ns)
  let r1 := setMemoryCache sz c key d ns ttl now
  let r2 := setDjangoCache r1.2 key d djangoUp
  let r3 := setFileCache r2.2 key d ttl now fileOk
  (r1.1 && r2.1 && r3.1, r3.2)

/-- Level 3 of `PerformanceCache.get`: the file-based tier, then the
cache-miss epilogue. -/
def getFileLevel (sz : α → Nat) (c : PCache α) (now : Nat) (ns : String)
    (key : String) (dflt : α) (djangoUp : Bool) : α × PCache α :=
  match findPair c.files (key ++ ".pkl") with
  | some fe =>
    if fe.isExpired now then
      let c1 := { c with files := dropKey c.files (key ++ ".pkl") }
      (dflt, { c1 with cache_stats := { c1.cache_stats with misses := c1.cache_stats.misses + 1 } })
    else
      let r1 := setDjangoCache c key fe.data djangoUp
      let r2 := setMemoryCache sz r1.2 key fe.data ns 3600 now
      (fe.data, { r2.2 with cache_stats :=
        { r2.2.cache_stats with
          hits := r2.2.cache_stats.hits + 1
          file_hits := r2.2.cache_stats.file_hits + 1 } })
  | none =>
    (dflt, { c with cache_stats := { c.cache_stats with misses := c.cache_stats.misses + 1 } })

/-- Level 2 of `PerformanceCache.get`: the Django tier (skipped when
`cache.get` raises, i.e. `djangoUp = false`), falling back to level 3. -/
def getDjangoLevel (sz : α → Nat) (c : PCache α) (now : Nat) (ns : String)
    (key : String) (dflt : α) (djangoUp : Bool) : α × PCache α :=
  if djangoUp then
    match findPair c.django key with
    | some d =>
      let r := setMemoryCache sz c key d ns 3600 now
      (d, { r.2 with cache_stats :=
        { r.2.cache_stats with
          hits := r.2.cache_stats.hits + 1
          django_hits := r.2.cache_stats.django_hits + 1 } })
    | none => getFileLevel sz c now ns key dflt djangoUp
  else getFileLevel sz c now ns key dflt djangoUp

/-- `PerformanceCache.get`: memory tier first (removing an expired
entry), then Django, then the file tier, then the miss default. -/
def getOp (sz : α → Nat) (c : PCache α) (now : Nat) (ns : String) (kd : KeyData)
    (dflt : α) (djangoUp : Bool) : α × PCache α :=
  let key := generateCacheKey ns kd
  match findPair c.memory_cache key with
  | some e =>
    if e.isExpired now then
      let c1 := { c with
        memory_cache := dropKey c.memory_cache key
        current_memory_size := c.current_memory_size - (e.size_bytes : Int) }
      getDjangoLevel sz c1 now ns key dflt djangoUp
    else
      (e.data, { c with
        memory_cache := setPair c.memory_cache key (e.updateAccess now)
        cache_stats := { c.cache_stats with
          hits := c.cache_stats.hits + 1
          memory_hits := c.cache_stats.memory_hits + 1 } })
  | none => getDjangoLevel sz c now ns key dflt djangoUp

/-- `PerformanceCache.delete`: remove from all three tiers; `djangoUp`
is false when `cache.delete` raises, making the result false. -/
def deleteOp (c : PCache α) (ns : String) (kd : KeyData) (djangoUp : Bool) : Bool × PCache α :=
  let key := generateCacheKey ns kd
  let c1 := match findPair c.memory_cache key with
    | some e => { c with
        memory_cache := dropKey c.memory_cache key
        current_memory_size := c.current_memory_size - (e.size_bytes : Int) }
    | none => c
  let c2 := { c1 with files := dropKey c1.files (key ++ ".pkl") }
  (djangoUp, c2)

/-- Glob match for the pattern `f"{namespace}_*.pkl"` used by
`clear_namespace` over file names (which contain no path separator):
the name must start with `namespace + "_"` and end with `".pkl"`,
with the two parts not overlapping. -/
def globChars (p : List Char) (s : List Char) : Bool :=
  s.take p.length == p && s.drop (s.length - 4) == ['.', 'p', 'k', 'l'] &&
    decide (p.length + 4 ≤ s.length)

def globMatch (ns : String) (name : String) : Bool :=
  globChars (ns.data ++ ['_']) name.data

/-- `PerformanceCache.clear_namespace`: drop memory entries whose key
starts with `f"{namespace}:"`, then unlink files matching the glob
`f"{namespace}_*.pkl"`. -/
def clearNamespace (c : PCache α) (ns : String) : PCache α :=
  let doomed := c.memory_cache.filter fun p => (ns ++ ":").data.isPrefixOf p.1.data
  { c with
    memory_cache := c.memory_cache.filter fun p => !((ns ++ ":").data.isPrefixOf p.1.data)
    current_memory_size := c.current_memory_size - (sumSizes doomed : Int)
    files := c.files.filter fun p => !(globMatch ns p.1) }

/-- `PerformanceCache.cleanup_expired`: drop every expired memory entry
(adjusting the size counter) and every expired persistent file. -/
def cleanupExpired (c : PCache α) (now : Nat) : PCache α :=
  let expired := c.memory_cache.filter fun p => p.2.isExpired now
  { c with
    memory_cache := c.memory_cache.filter fun p => !(p.2.isExpired now)
    current_memory_size := c.current_memory_size - (sumSizes expired : Int)
    files := c.files.filter fun p => !(p.2.isExpired now) }

/-- A freshly constructed `PerformanceCache`. -/
def emptyCache : PCache α := ⟨[], Stats.zero, 0, [], []⟩

/-- The `cached(namespace, ttl, key_func)` decorator's wrapper around a
computation `f`.  Stored payloads are `Option β` so that Python's
`None` (both the `get` default and a legitimately cached `None`) is
`none`.  The middle component counts invocations of `f`. -/
def cachedWrapper {β : Type} (sz : Option β → Nat) (c : PCache (Option β)) (now : Nat)
    (ns : String) (ttlOpt : Option Nat) (kd : KeyData) (f : Unit → Option β)
    (djangoUp fileOk : Bool) : Option β × Nat × PCache (Option β) :=
  let r := getOp sz c now ns kd none djangoUp
  match r.1 with
  | some v => (some v, 0, r.2)
  | none =>
    let res := f ()
    let s := setOp sz r.2 now ns kd res ttlOpt djangoUp fileOk
    (res, 1, s.2)

/-! ### Dictionary lemmas -/

theorem findPair_setPair_self {β : Type} (l : List (String × β)) (k : String) (v : β) :
    findPair (setPair l k v) k = some v := by
  induction l with
  | nil => simp [setPair, findPair]
  | cons hd tl ih =>
    obtain ⟨k1, v1⟩ := hd
    by_cases h : k1 = k
    · simp [setPair, h, findPair]
    · simp [setPair, h, findPair, ih]

theorem findPair_filter_true {β : Type} (l : List (String × β)) (k : String)
    (p : String × β → Bool) (hp : ∀ v, p (k, v) = true) :
    findPair (l.filter p) k = findPair l k := by
  induction l with
  | nil => rfl
  | cons hd tl ih =>
    obtain ⟨k1, v1⟩ := hd
    by_cases h : k1 = k
    · subst h
      simp [List.filter, hp v1, findPair, ih]
    · by_cases hk : p (k1, v1) = true
      · simp [List.filter, hk, findPair, h, ih]
      · simp only [List.filter, hk]
        simp only [Bool.false_eq_true] at hk
        simp [hk, findPair, h, ih]

theorem setPair_of_find_none {β : Type} (l : List (String × β)) (k : String) (v : β)
    (h : findPair l k = none) : setPair l k v = l ++ [(k, v)] := by
  induction l with
  | nil => rfl
  | cons hd tl ih =>
    obtain ⟨k1, v1⟩ := hd
    by_cases hk : k1 = k
    · simp [findPair, hk] at h
    · simp [findPair, hk] at h
      simp [setPair, hk, ih h]

/-! ### Size-sum lemmas -/

theorem sumSizes_append (l1 l2 : List (String × CacheEntry α)) :
    sumSizes (l1 ++ l2) = sumSizes l1 + sumSizes l2 := by
  simp [sumSizes]

theorem sumSizes_perm {l1 l2 : List (String × CacheEntry α)} (h : l1.Perm l2) :
    sumSizes l1 = sumSizes l2 := by
  unfold sumSizes
  exact List.Perm.sum_eq (List.Perm.map (fun p => p.2.size_bytes) h)

/-! ### Eviction-loop lemmas -/

theorem evictFrom_prefix_ex (required freed : Nat) (l : List (String × CacheEntry α)) :
    ∃ rest, l = evictFrom required freed l ++ rest := by
  induction l generalizing freed with
  | nil => exact ⟨[], rfl⟩
  | cons kv tl ih =>
    by_cases h : required ≤ freed
    · exact ⟨kv :: tl, by simp [evictFrom, h]⟩
    · obtain ⟨rest, hrest⟩ := ih (freed + kv.2.size_bytes)
      exact ⟨rest, by simp [evictFrom, h]; exact hrest⟩

theorem evictFrom_sum (required freed : Nat) (l : List (String × CacheEntry α)) :
    required ≤ freed + sumSizes (evictFrom required freed l) ∨
      evictFrom required freed l = l := by
  induction l generalizing freed with
  | nil => exact Or.inr rfl
  | cons kv tl ih =>
    by_cases h : required ≤ freed
    · left
      simp only [evictFrom, if_pos h, sumSizes, List.map_nil, List.sum_nil]
      omega
    · rcases ih (freed + kv.2.size_bytes) with h1 | h1
      · left
        simp only [evictFrom, if_neg h]
        simp [sumSizes] at h1 ⊢
        omega
      · right
        simp [evictFrom, h, h1]

theorem evictFrom_minimal (required freed : Nat) (l : List (String × CacheEntry α)) :
    ∀ n, n < (evictFrom required freed l).length →
      freed + sumSizes ((evictFrom required freed l).take n) < required := by
  induction l generalizing freed with
  | nil => intro n hn; simp [evictFrom] at hn
  | cons kv tl ih =>
    intro n hn
    by_cases h : required ≤ freed
    · simp [evictFrom, h] at hn
    · simp only [evictFrom, if_neg h] at hn ⊢
      match n with
      | 0 => simpa [sumSizes] using Nat.lt_of_not_le h
      | m + 1 =>
        simp only [List.length_cons, Nat.add_lt_add_iff_right] at hn
        have := ih (freed + kv.2.size_bytes) m hn
        simp [sumSizes] at this ⊢
        omega

/-! ### Hexadecimal-output lemmas -/

theorem toHexW_length (w n : Nat) : (toHexW w n).length = w := by
  induction w generalizing n with
  | zero => rfl
  | succ m ih => simp [toHexW, ih]

theorem isHexChar_hexChar (n : Nat) : isHexChar (hexChar n) = true := by
  have h : n % 16 < 16 := Nat.mod_lt _ (by decide)
  unfold hexChar
  interval_cases h1 : n % 16 <;> decide

theorem toHexW_hex (w n : Nat) : ∀ c ∈ toHexW w n, isHexChar c = true := by
  induction w generalizing n with
  | zero => intro c hc; simp [toHexW] at hc
  | succ m ih =>
    intro c hc
    simp only [toHexW, List.mem_append, List.mem_singleton] at hc
    rcases hc with hc | hc
    · exact ih _ c hc
    · subst hc; exact isHexChar_hexChar n

theorem hexOfDigest_length (d : Digest) : (hexOfDigest d).length = 64 := by
  simp [hexOfDigest, toHexW_length]

theorem hexOfDigest_hex (d : Digest) : ∀ c ∈ hexOfDigest d, isHexChar c = true := by
  intro c hc
  simp only [hexOfDigest, List.mem_append] at hc
  rcases hc with ((((((hc | hc) | hc) | hc) | hc) | hc) | hc) | hc <;>
    exact toHexW_hex _ _ c hc

/-! ### Cache-key shape lemmas -/

theorem keyHash_length (kd : KeyData) : (keyHash kd).length = 16 := by
  show ((sha256HexOfStr (keyString kd)).take 16).length = 16
  unfold sha256HexOfStr
  rw [List.length_take, hexOfDigest_length]
  decide

theorem keyHash_hex (kd : KeyData) : ∀ c ∈ (keyHash kd).data, isHexChar c = true := by
  intro c hc
  have hc2 : c ∈ sha256HexOfStr (keyString kd) := List.take_subset 16 _ hc
  exact hexOfDigest_hex _ c hc2

theorem generateCacheKey_shape (ns : String) (kd : KeyData) :
    generateCacheKey ns kd = ns ++ ":" ++ keyHash kd := rfl

/-- Character list of a derived cache key: the namespace, a colon, the
hash characters. -/
theorem generateCacheKey_data (ns : String) (kd : KeyData) :
    (generateCacheKey ns kd).data = ns.data ++ ':' :: (keyHash kd).data := by
  show (ns ++ ":" ++ keyHash kd).data = _
  rw [String.data_append, String.data_append, List.append_assoc]
  rfl

/-- The glob pattern `f"{namespace}_*.pkl"` can never match a file whose
name starts with `f"{namespace}:"`: at the position right after the
namespace the pattern demands an underscore while the name has a colon. -/
theorem globMatch_colon_false (ns : String) (tail : List Char) (name : String)
    (hname : name.data = ns.data ++ ':' :: tail) : globMatch ns name = false := by
  have hne : ¬ List.take (ns.data ++ ['_']).length name.data = ns.data ++ ['_'] := by
    rw [hname]
    have hlen : (ns.data ++ ['_']).length = ns.data.length + 1 := by simp
    rw [hlen, List.take_append_eq_append_take, List.take_of_length_le (Nat.le_succ _)]
    intro h
    have h2 := List.append_cancel_left h
    have h3 : ns.data.length + 1 - ns.data.length = 1 := by omega
    rw [h3] at h2
    simp at h2
  unfold globMatch globChars
  have hb : (List.take (ns.data ++ ['_']).length name.data == ns.data ++ ['_']) = false :=
    beq_eq_false_iff_ne.mpr hne
  rw [hb, Bool.false_and, Bool.false_and]

/-! ### Frame lemmas: which state components each tier write touches -/

theorem evictMemoryCache_files (c : PCache α) (r : Nat) :
    (evictMemoryCache c r).files = c.files := by
  cases hm : c.memory_cache <;> simp [evictMemoryCache, hm]

theorem evictMemoryCache_django (c : PCache α) (r : Nat) :
    (evictMemoryCache c r).django = c.django := by
  cases hm : c.memory_cache <;> simp [evictMemoryCache, hm]

theorem setMemoryCache_files (sz : α → Nat) (c : PCache α) (k : String) (d : α)
    (ns : String) (ttl now : Nat) :
    (setMemoryCache sz c k d ns ttl now).2.files = c.files := by
  by_cases h : sz d > configMaxSize ns
  · simp [setMemoryCache, h]
  · by_cases h2 : c.current_memory_size + (sz d : Int) > (maxMemorySize : Int)
    · simp [setMemoryCache, h, h2, evictMemoryCache_files]
    · simp [setMemoryCache, h, h2]

theorem setMemoryCache_django (sz : α → Nat) (c : PCache α) (k : String) (d : α)
    (ns : String) (ttl now : Nat) :
    (setMemoryCache sz c k d ns ttl now).2.django = c.django := by
  by_cases h : sz d > configMaxSize ns
  · simp [setMemoryCache, h]
  · by_cases h2 : c.current_memory_size + (sz d : Int) > (maxMemorySize : Int)
    · simp [setMemoryCache, h, h2, evictMemoryCache_django]
    · simp [setMemoryCache, h, h2]

theorem setMemoryCache_fst (sz : α → Nat) (c : PCache α) (k : String) (d : α)
    (ns : String) (ttl now : Nat) :
    (setMemoryCache sz c k d ns ttl now).1 = decide (sz d ≤ configMaxSize ns) := by
  by_cases h : sz d > configMaxSize ns
  · simp [setMemoryCache, h, Nat.not_le.mpr h]
  · simp [setMemoryCache, h, Nat.not_lt.mp h]

theorem setDjangoCache_memory (c : PCache α) (k : String) (d : α) (up : Bool) :
    (setDjangoCache c k d up).2.memory_cache = c.memory_cache := by
  unfold setDjangoCache; split <;> rfl

theorem setDjangoCache_stats (c : PCache α) (k : String) (d : α) (up : Bool) :
    (setDjangoCache c k d up).2.cache_stats = c.cache_stats := by
  unfold setDjangoCache; split <;> rfl

theorem setDjangoCache_size (c : PCache α) (k : String) (d : α) (up : Bool) :
    (setDjangoCache c k d up).2.current_memory_size = c.current_memory_size := by
  unfold setDjangoCache; split <;> rfl

theorem setDjangoCache_files (c : PCache α) (k : String) (d : α) (up : Bool) :
    (setDjangoCache c k d up).2.files = c.files := by
  unfold setDjangoCache; split <;> rfl

theorem setDjangoCache_fst (c : PCache α) (k : String) (d : α) (up : Bool) :
    (setDjangoCache c k d up).1 = up := by
  unfold setDjangoCache; cases up <;> simp

theorem setDjangoCache_django (c : PCache α) (k : String) (d : α) (up : Bool) :
    (setDjangoCache c k d up).2.django = if up then setPair c.django k d else c.django := by
  unfold setDjangoCache; cases up <;> simp

theorem setFileCache_memory (c : PCache α) (k : String) (d : α) (ttl now : Nat) (ok : Bool) :
    (setFileCache c k d ttl now ok).2.memory_cache = c.memory_cache := by
  unfold setFileCache; split <;> rfl

theorem setFileCache_stats (c : PCache α) (k : String) (d : α) (ttl now : Nat) (ok : Bool) :
    (setFileCache c k d ttl now ok).2.cache_stats = c.cache_stats := by
  unfold setFileCache; split <;> rfl

theorem setFileCache_size (c : PCache α) (k : String) (d : α) (ttl now : Nat) (ok : Bool) :
    (setFileCache c k d ttl now ok).2.current_memory_size = c.current_memory_size := by
  unfold setFileCache; split <;> rfl

theorem setFileCache_django (c : PCache α) (k : String) (d : α) (ttl now : Nat) (ok : Bool) :
    (setFileCache c k d ttl now ok).2.django = c.django := by
  unfold setFileCache; split <;> rfl

theorem setFileCache_fst (c : PCache α) (k : String) (d : α) (ttl now : Nat) (ok : Bool) :
    (setFileCache c k d ttl now ok).1 = ok := by
  unfold setFileCache; cases ok <;> simp

theorem setFileCache_files (c : PCache α) (k : String) (d : α) (ttl now : Nat) (ok : Bool) :
    (setFileCache c k d ttl now ok).2.files =
      if ok then
        setPair c.files (k ++ ".pkl")
          { data := d, created_at := now, accessed_at := now, access_count := 0,
            ttl := ttl, size_bytes := 0, cache_key := k }
      else c.files := by
  unfold setFileCache; cases ok <;> simp

/-! ### Namespace-policy bounds -/

theorem configMaxSize_le_budget (ns : String) : configMaxSize ns ≤ maxMemorySize := by
  unfold configMaxSize maxMemorySize
  repeat' split
  all_goals decide

/-! ### Canonical-serialization lemmas -/

/-- Strict key order, used to make sorted item lists unique. -/
def pairLt (a b : String × Json) : Prop := a.1 < b.1

instance : IsAntisymm (String × Json) pairLt :=
  ⟨fun _ _ h1 h2 => absurd (lt_trans h1 h2) (lt_irrefl _)⟩

theorem canonPairs_eq_map (l : List (String × Json)) :
    canonPairs l = l.map fun p => (p.1, p.2.canon) := by
  induction l with
  | nil => rfl
  | cons hd tl ih => obtain ⟨k, v⟩ := hd; simp [canonPairs, ih]

/-- Two item lists that are permutations of each other with duplicate-free
keys sort to the same list. -/
theorem sortPairs_eq_of_perm {l1 l2 : List (String × Json)} (hp : l1.Perm l2)
    (hnd : (l1.map Prod.fst).Nodup) : sortPairs l1 = sortPairs l2 := by
  have hs1 : List.Sorted pairLe (sortPairs l1) := List.sorted_insertionSort pairLe l1
  have hs2 : List.Sorted pairLe (sortPairs l2) := List.sorted_insertionSort pairLe l2
  have hperm : (sortPairs l1).Perm (sortPairs l2) :=
    ((List.perm_insertionSort pairLe l1).trans hp).trans (List.perm_insertionSort pairLe l2).symm
  have hnd2 : (l2.map Prod.fst).Nodup := ((hp.map Prod.fst).nodup_iff).mp hnd
  have strict : ∀ l : List (String × Json), (l.map Prod.fst).Nodup →
      List.Sorted pairLe (sortPairs l) → List.Sorted pairLt (sortPairs l) := by
    intro l hl hsort
    have hnds : ((sortPairs l).map Prod.fst).Nodup :=
      (((List.perm_insertionSort pairLe l).map Prod.fst).nodup_iff).mpr hl
    rw [List.Nodup, List.pairwise_map] at hnds
    have hand := List.Pairwise.and hsort hnds
    exact hand.imp fun h => lt_of_le_of_ne h.1 h.2
  exact List.eq_of_perm_of_sorted hperm (strict l1 hnd hs1) (strict l2 hnd2 hs2)

/-- Serialization of a mapping is invariant under reordering its items
(provided keys are unique, as Python dict keys are). -/
theorem keyString_dict_perm {l1 l2 : List (String × Json)} (hp : l1.Perm l2)
    (hnd : (l1.map Prod.fst).Nodup) :
    keyString (.dict l1) = keyString (.dict l2) := by
  show dumpJson (Json.canon (.obj l1)) = dumpJson (Json.canon (.obj l2))
  have : sortPairs (canonPairs l1) = sortPairs (canonPairs l2) := by
    apply sortPairs_eq_of_perm
    · rw [canonPairs_eq_map, canonPairs_eq_map]
      exact hp.map _
    · rw [canonPairs_eq_map]
      have : (l1.map fun p => (p.1, p.2.canon)).map Prod.fst = l1.map Prod.fst := by
        rw [List.map_map]; rfl
      rw [this]
      exact hnd
  simp [Json.canon, this]

theorem findPair_filter_false {β : Type} (l : List (String × β)) (k : String)
    (p : String × β → Bool) (hp : ∀ v, p (k, v) = false) :
    findPair (l.filter p) k = none := by
  induction l with
  | nil => rfl
  | cons hd tl ih =>
    obtain ⟨k1, v1⟩ := hd
    by_cases h : k1 = k
    · subst h
      simp [List.filter, hp v1, ih]
    · by_cases hk : p (k1, v1) = true
      · simp [List.filter, hk, findPair, h, ih]
      · simp only [List.filter, hk]
        simp only [Bool.false_eq_true] at hk
        simp [hk, findPair, h, ih]

theorem isPrefixOf_append_self (a r : List Char) (x : Char) :
    (a ++ [x]).isPrefixOf (a ++ x :: r) = true := by
  induction a with
  | nil => simp [List.isPrefixOf]
  | cons hd tl ih => simp [List.isPrefixOf, ih]

/-- Character decomposition of a derived key's `.pkl` file name. -/
theorem keyFileName_data (ns : String) (kd : KeyData) :
    (generateCacheKey ns kd ++ ".pkl").data =
      ns.data ++ ':' :: ((keyHash kd).data ++ ['.', 'p', 'k', 'l']) := by
  rw [String.data_append, generateCacheKey_data]
  simp

/-! ### Claim C1 -/

/-- C1: the size-accounting invariant `current_memory_size = Σ size_bytes`
is broken by a `set` that overwrites a key already resident in the memory
cache: `_set_memory_cache` adds the new entry's size without subtracting
the overwritten entry's size.  Two writes of the same key with sizes 10
and 20 leave the counter at 30 while the resident entries sum to 20. -/
theorem C1_overwrite_breaks_size_accounting :
    (setMemoryCache (fun b => cond b 20 10)
      (setMemoryCache (fun b => cond b 20 10) (emptyCache (α := Bool))
        "user_preferences:k" false "user_preferences" 3600 0).2
      "user_preferences:k" true "user_preferences" 3600 1).2.current_memory_size = 30 ∧
    sumSizes (setMemoryCache (fun b => cond b 20 10)
      (setMemoryCache (fun b => cond b 20 10) (emptyCache (α := Bool))
        "user_preferences:k" false "user_preferences" 3600 0).2
      "user_preferences:k" true "user_preferences" 3600 1).2.memory_cache = 20 :=
  ⟨by decide, by decide⟩

/-! ### Claim C6 -/

/-- C6: a value whose measured size exceeds the namespace's
`max_entry_size_bytes` is rejected by the memory-tier write before any
mutation: the returned state is exactly the input state (memory map,
size counter and statistics all unchanged), and the result is failure. -/
theorem C6_oversize_rejection_atomic (sz : α → Nat) (c : PCache α) (k : String)
    (d : α) (ns : String) (ttl now : Nat) (h : configMaxSize ns < sz d) :
    setMemoryCache sz c k d ns ttl now = (false, c) := by
  unfold setMemoryCache
  simp [h]

/-- Witness for C6 at a concrete oversized value in an unregistered
namespace (cap 10485760 bytes). -/
theorem C6_oversize_rejection_atomic_witness :
    configMaxSize "zzz" < 10485761 ∧
      setMemoryCache (fun _ => 10485761) (emptyCache (α := Unit)) "zzz:k" () "zzz" 3600 0 =
        (false, emptyCache (α := Unit)) :=
  ⟨by decide, C6_oversize_rejection_atomic _ _ _ _ _ _ _ (by decide)⟩

/-! ### Claim C2 -/

/-- C2: `clear_namespace` removes the memory-tier entry for every key
written under the namespace, but removes no persistent-tier file for
such keys: keys are written as `f"{namespace}:{hash}"`, so the file is
named `f"{namespace}:{hash}.pkl"`, while the method globs
`f"{namespace}_*.pkl"` (underscore, not colon), which such a name never
matches.  After `set` followed by `clear_namespace` the `.pkl` file of
the very key just written is still present. -/
theorem C2_clear_namespace_misses_persistent_files (sz : α → Nat) (c : PCache α)
    (now : Nat) (ns : String) (kd : KeyData) (v : α) (t : Option Nat) :
    findPair (clearNamespace (setOp sz c now ns kd v t true true).2 ns).memory_cache
        (generateCacheKey ns kd) = none ∧
    findPair (clearNamespace (setOp sz c now ns kd v t true true).2 ns).files
        (generateCacheKey ns kd ++ ".pkl") =
      some { data := v, created_at := now, accessed_at := now, access_count := 0,
             ttl := t.getD (configTtl ns), size_bytes := 0,
             cache_key := generateCacheKey ns kd } := by
  have hpre : (ns ++ ":").data = ns.data ++ [':'] := by
    rw [String.data_append]
  constructor
  · apply findPair_filter_false
    intro e
    have h2 : (ns ++ ":").data.isPrefixOf (generateCacheKey ns kd).data = true := by
      rw [generateCacheKey_data, hpre]
      exact isPrefixOf_append_self _ _ _
    show (!((ns ++ ":").data.isPrefixOf (generateCacheKey ns kd).data)) = false
    rw [h2]
    decide
  · have hglob : globMatch ns (generateCacheKey ns kd ++ ".pkl") = false :=
      globMatch_colon_false ns _ _ (keyFileName_data ns kd)
    have hfiles : (setOp sz c now ns kd v t true true).2.files =
        setPair c.files (generateCacheKey ns kd ++ ".pkl")
          { data := v, created_at := now, accessed_at := now, access_count := 0,
            ttl := t.getD (configTtl ns), size_bytes := 0,
            cache_key := generateCacheKey ns kd } := by
      simp only [setOp]
      rw [setFileCache_files, setDjangoCache_files, setMemoryCache_files]
      simp
    show findPair (((setOp sz c now ns kd v t true true).2.files).filter
        fun p => !(globMatch ns p.1)) (generateCacheKey ns kd ++ ".pkl") = _
    rw [hfiles, findPair_filter_true]
    · exact findPair_setPair_self _ _ _
    · intro e
      rw [hglob]
      rfl

/-! ### Claim C3 -/

/-- C3: `set` attempts all three tier writes unconditionally and returns
the conjunction of their outcomes: the shared tier's contents and the
persistent tier's contents are updated exactly according to their own
availability, independent of whether the memory write passed the
namespace size cap, and the returned boolean is
`memory-ok AND shared-ok AND file-ok`. -/
theorem C3_set_writes_all_tiers (sz : α → Nat) (c : PCache α) (now : Nat)
    (ns : String) (kd : KeyData) (v : α) (t : Option Nat) (dUp fOk : Bool) :
    (setOp sz c now ns kd v t dUp fOk).1 =
      (decide (sz v ≤ configMaxSize ns) && dUp && fOk) ∧
    (setOp sz c now ns kd v t dUp fOk).2.django =
      (if dUp then setPair c.django (generateCacheKey ns kd) v else c.django) ∧
    (setOp sz c now ns kd v t dUp fOk).2.files =
      (if fOk then
        setPair c.files (generateCacheKey ns kd ++ ".pkl")
          { data := v, created_at := now, accessed_at := now, access_count := 0,
            ttl := t.getD (configTtl ns), size_bytes := 0,
            cache_key := generateCacheKey ns kd }
      else c.files) := by
  refine ⟨?_, ?_, ?_⟩
  · simp only [setOp]
    rw [setMemoryCache_fst, setDjangoCache_fst, setFileCache_fst]
  · simp only [setOp]
    rw [setFileCache_django, setDjangoCache_django, setMemoryCache_django]
  · simp only [setOp]
    rw [setFileCache_files, setDjangoCache_files, setMemoryCache_files]

/-! ### Claim C5 -/

theorem setMemoryCache_memory_of_cap (sz : α → Nat) (c : PCache α) (k : String)
    (d : α) (ns : String) (ttl now : Nat) (h : sz d ≤ configMaxSize ns) :
    (setMemoryCache sz c k d ns ttl now).2.memory_cache =
      setPair (if c.current_memory_size + (sz d : Int) > (maxMemorySize : Int)
          then evictMemoryCache c (sz d) else c).memory_cache k
        { data := d, created_at := now, accessed_at := now, access_count := 0,
          ttl := ttl, size_bytes := sz d, cache_key := k } := by
  by_cases h2 : c.current_memory_size + (sz d : Int) > (maxMemorySize : Int)
  · simp [setMemoryCache, Nat.not_lt.mpr h, h2]
  · simp [setMemoryCache, Nat.not_lt.mpr h, h2]

/-- C5: read-your-write through the memory tier.  For a value within
the namespace's size cap and a positive TTL, a `set` immediately
followed by a `get` of the same namespace and key data (at the same
instant, whatever the shared/persistent tiers did) returns the value
just written, and it is served by the memory tier: both `hits` and
`memory_hits` increase by one. -/
theorem C5_set_then_get_returns_value (sz : α → Nat) (c : PCache α) (now : Nat)
    (ns : String) (kd : KeyData) (v : α) (ttl : Nat) (dflt : α) (dUp fOk gUp : Bool)
    (hcap : sz v ≤ configMaxSize ns) (_httl : 0 < ttl) :
    (getOp sz (setOp sz c now ns kd v (some ttl) dUp fOk).2 now ns kd dflt gUp).1 = v ∧
    (getOp sz (setOp sz c now ns kd v (some ttl) dUp fOk).2 now ns kd dflt gUp).2.cache_stats.memory_hits =
      (setOp sz c now ns kd v (some ttl) dUp fOk).2.cache_stats.memory_hits + 1 ∧
    (getOp sz (setOp sz c now ns kd v (some ttl) dUp fOk).2 now ns kd dflt gUp).2.cache_stats.hits =
      (setOp sz c now ns kd v (some ttl) dUp fOk).2.cache_stats.hits + 1 := by
  have hmem : (setOp sz c now ns kd v (some ttl) dUp fOk).2.memory_cache =
      setPair (if c.current_memory_size + (sz v : Int) > (maxMemorySize : Int)
          then evictMemoryCache c (sz v) else c).memory_cache (generateCacheKey ns kd)
        { data := v, created_at := now, accessed_at := now, access_count := 0,
          ttl := ttl, size_bytes := sz v, cache_key := generateCacheKey ns kd } := by
    simp only [setOp]
    rw [setFileCache_memory, setDjangoCache_memory]
    exact setMemoryCache_memory_of_cap sz c _ v ns _ now hcap
  have hfind : findPair (setOp sz c now ns kd v (some ttl) dUp fOk).2.memory_cache
      (generateCacheKey ns kd) =
      some { data := v, created_at := now, accessed_at := now, access_count := 0,
             ttl := ttl, size_bytes := sz v, cache_key := generateCacheKey ns kd } := by
    rw [hmem]
    exact findPair_setPair_self _ _ _
  have hexp : CacheEntry.isExpired
      { data := v, created_at := now, accessed_at := now, access_count := 0,
        ttl := ttl, size_bytes := sz v, cache_key := generateCacheKey ns kd } now = false := by
    simp [CacheEntry.isExpired]
  simp only [getOp]
  rw [hfind]
  simp only [hexp, Bool.false_eq_true, if_false]
  exact ⟨trivial, trivial, trivial⟩

/-- Witness for C5: a concrete `set`-then-`get` in namespace
`template_data` returns the stored value 7 with a memory hit. -/
theorem C5_set_then_get_returns_value_witness :
    4 ≤ configMaxSize "template_data" ∧ 0 < 5 ∧
    ((getOp (fun _ => 4) (setOp (fun _ => 4) (emptyCache (α := Nat)) 100 "template_data"
        (.str "tmpl1") 7 (some 5) true true).2 100 "template_data" (.str "tmpl1") 0 true).1 = 7 ∧
     (getOp (fun _ => 4) (setOp (fun _ => 4) (emptyCache (α := Nat)) 100 "template_data"
        (.str "tmpl1") 7 (some 5) true true).2 100 "template_data" (.str "tmpl1") 0 true).2.cache_stats.memory_hits =
       (setOp (fun _ => 4) (emptyCache (α := Nat)) 100 "template_data"
        (.str "tmpl1") 7 (some 5) true true).2.cache_stats.memory_hits + 1 ∧
     (getOp (fun _ => 4) (setOp (fun _ => 4) (emptyCache (α := Nat)) 100 "template_data"
        (.str "tmpl1") 7 (some 5) true true).2 100 "template_data" (.str "tmpl1") 0 true).2.cache_stats.hits =
       (setOp (fun _ => 4) (emptyCache (α := Nat)) 100 "template_data"
        (.str "tmpl1") 7 (some 5) true true).2.cache_stats.hits + 1) :=
  ⟨by decide, by decide,
    C5_set_then_get_returns_value (fun _ => 4) (emptyCache (α := Nat)) 100 "template_data"
      (.str "tmpl1") 7 5 0 true true true (by decide) (by decide)⟩

/-! ### Claim C4 -/

theorem evictMemoryCache_of_ne (c : PCache α) (r : Nat) (h : c.memory_cache ≠ []) :
    evictMemoryCache c r =
      { c with
        memory_cache := dropKeys c.memory_cache
          ((evictFrom r 0 (List.insertionSort accLe c.memory_cache)).map Prod.fst)
        current_memory_size := c.current_memory_size -
          (sumSizes (evictFrom r 0 (List.insertionSort accLe c.memory_cache)) : Int)
        cache_stats := { c.cache_stats with evictions := c.cache_stats.evictions +
          (evictFrom r 0 (List.insertionSort accLe c.memory_cache)).length } } := by
  cases hmc : c.memory_cache with
  | nil => exact absurd hmc h
  | cons a l =>
    unfold evictMemoryCache
    simp only [hmc]

/-- C4: when the memory tier is exactly at the 100 MB budget and an
acceptable entry of positive size `S` is inserted, `_evict_memory_cache`
removes precisely a prefix of the entries sorted by ascending
`accessed_at`: the freed bytes reach at least `S`, every proper prefix
of the removed entries frees strictly less than `S` (so nothing beyond
the needed point is evicted), the `evictions` counter grows by exactly
the number of removed entries, and the put succeeds, leaving the map
equal to the original minus the evicted keys plus the new entry. -/
theorem C4_eviction_lru_exact (sz : α → Nat) (c : PCache α) (ns k : String)
    (v : α) (ttl now : Nat)
    (hsum : sumSizes c.memory_cache = maxMemorySize)
    (hcounter : c.current_memory_size = (maxMemorySize : Int))
    (hpos : 0 < sz v) (hcap : sz v ≤ configMaxSize ns) :
    (setMemoryCache sz c k v ns ttl now).1 = true ∧
    (setMemoryCache sz c k v ns ttl now).2.cache_stats.evictions =
      c.cache_stats.evictions +
        (evictFrom (sz v) 0 (List.insertionSort accLe c.memory_cache)).length ∧
    List.Sorted accLe (List.insertionSort accLe c.memory_cache) ∧
    (List.insertionSort accLe c.memory_cache).Perm c.memory_cache ∧
    (∃ rest, List.insertionSort accLe c.memory_cache =
      evictFrom (sz v) 0 (List.insertionSort accLe c.memory_cache) ++ rest) ∧
    sz v ≤ sumSizes (evictFrom (sz v) 0 (List.insertionSort accLe c.memory_cache)) ∧
    (∀ n, n < (evictFrom (sz v) 0 (List.insertionSort accLe c.memory_cache)).length →
      sumSizes ((evictFrom (sz v) 0 (List.insertionSort accLe c.memory_cache)).take n) < sz v) ∧
    (setMemoryCache sz c k v ns ttl now).2.memory_cache =
      setPair (dropKeys c.memory_cache
          ((evictFrom (sz v) 0 (List.insertionSort accLe c.memory_cache)).map Prod.fst)) k
        { data := v, created_at := now, accessed_at := now, access_count := 0,
          ttl := ttl, size_bytes := sz v, cache_key := k } := by
  have hne : c.memory_cache ≠ [] := by
    intro h
    rw [h] at hsum
    simp [sumSizes, maxMemorySize] at hsum
  have hcond : c.current_memory_size + (sz v : Int) > (maxMemorySize : Int) := by
    rw [hcounter]
    omega
  have hset : setMemoryCache sz c k v ns ttl now =
      (true, { evictMemoryCache c (sz v) with
        memory_cache := setPair (evictMemoryCache c (sz v)).memory_cache k
          { data := v, created_at := now, accessed_at := now, access_count := 0,
            ttl := ttl, size_bytes := sz v, cache_key := k }
        current_memory_size :=
          (evictMemoryCache c (sz v)).current_memory_size + (sz v : Int) }) := by
    simp [setMemoryCache, Nat.not_lt.mpr hcap, hcond]
  have hev := evictMemoryCache_of_ne c (sz v) hne
  refine ⟨by rw [hset], ?_, List.sorted_insertionSort accLe c.memory_cache,
    List.perm_insertionSort accLe c.memory_cache,
    evictFrom_prefix_ex (sz v) 0 (List.insertionSort accLe c.memory_cache), ?_, ?_, ?_⟩
  · rw [hset]
    show (evictMemoryCache c (sz v)).cache_stats.evictions = _
    rw [hev]
  · rcases evictFrom_sum (sz v) 0 (List.insertionSort accLe c.memory_cache) with h1 | h1
    · simpa using h1
    · rw [h1, sumSizes_perm (List.perm_insertionSort accLe c.memory_cache), hsum]
      exact le_trans hcap (configMaxSize_le_budget ns)
  · intro n hn
    have := evictFrom_minimal (sz v) 0 (List.insertionSort accLe c.memory_cache) n hn
    simpa using this
  · rw [hset]
    show setPair (evictMemoryCache c (sz v)).memory_cache k _ = _
    rw [hev]

/-- Witness for C4: a memory tier holding one 100 MB entry receives a
5-byte value; the theorem applies and the put succeeds. -/
theorem C4_eviction_lru_exact_witness :
    sumSizes [("gemini_responses:k0",
      ({ data := (), created_at := 0, accessed_at := 0, access_count := 0,
         ttl := 3600, size_bytes := 104857600,
         cache_key := "gemini_responses:k0" } : CacheEntry Unit))] = maxMemorySize ∧
    (104857600 : Int) = (maxMemorySize : Int) ∧
    0 < 5 ∧ 5 ≤ configMaxSize "gemini_responses" ∧
    (setMemoryCache (fun _ => 5)
      (⟨[("gemini_responses:k0",
          { data := (), created_at := 0, accessed_at := 0, access_count := 0,
            ttl := 3600, size_bytes := 104857600, cache_key := "gemini_responses:k0" })],
        Stats.zero, 104857600, [], []⟩ : PCache Unit)
      "gemini_responses:k1" () "gemini_responses" 3600 9).1 = true :=
  ⟨by decide, by decide, by decide, by decide,
    (C4_eviction_lru_exact (fun _ => 5)
      (⟨[("gemini_responses:k0",
          { data := (), created_at := 0, accessed_at := 0, access_count := 0,
            ttl := 3600, size_bytes := 104857600, cache_key := "gemini_responses:k0" })],
        Stats.zero, 104857600, [], []⟩ : PCache Unit)
      "gemini_responses" "gemini_responses:k1" () 3600 9
      (by decide) (by decide) (by decide) (by decide)).1⟩

/-! ### Claim C7 -/

/-- One memory-tier put in namespace `gemini_responses` with the value's
size given by the value itself. -/
def c7put (c : PCache Nat) (k : String) (n now : Nat) : PCache Nat :=
  (setMemoryCache (fun s => s) c k n "gemini_responses" 3600 now).2

/-- Five consecutive puts: a 50 MB value, overwritten by a 1-byte value;
a 49 MB value, overwritten by a 1-byte value; then a fresh 50 MB value.
Every size is at or below the namespace cap of 50 MB. -/
def c7state : PCache Nat :=
  c7put (c7put (c7put (c7put (c7put emptyCache "gemini_responses:a" 52428800 1)
    "gemini_responses:a" 1 2) "gemini_responses:b" 51380224 3)
    "gemini_responses:b" 1 4) "gemini_responses:c" 52428800 5

/-- C7 is violated by the code: after the five puts of `c7state` (each
value within the 50 MB namespace cap, each accepted) the running size
counter stands at 156237824 bytes, exceeding the 100 MB global budget —
overwrites inflate the counter, so the later eviction frees almost
nothing while the counter says the cache is full. -/
theorem C7_budget_exceeded_demo :
    52428800 ≤ configMaxSize "gemini_responses" ∧
    51380224 ≤ configMaxSize "gemini_responses" ∧
    1 ≤ configMaxSize "gemini_responses" ∧
    c7state.current_memory_size = 156237824 ∧
    (maxMemorySize : Int) < c7state.current_memory_size :=
  ⟨by decide, by decide, by decide, by decide, by decide⟩

/-! ### Claim C8 -/

/-- C8: cache-key derivation is a pure function (equal inputs give equal
keys); serialization canonicalization makes any two mappings that agree
up to item order (with duplicate-free keys, as Python dicts guarantee)
derive the same key; and every derived key is the namespace, a colon,
and exactly 16 hexadecimal characters of the SHA-256 digest. -/
theorem C8_key_derivation_canonical :
    (∀ ns (kd1 kd2 : KeyData), kd1 = kd2 →
      generateCacheKey ns kd1 = generateCacheKey ns kd2) ∧
    (∀ ns (d1 d2 : List (String × Json)), d1.Perm d2 → (d1.map Prod.fst).Nodup →
      generateCacheKey ns (.dict d1) = generateCacheKey ns (.dict d2)) ∧
    (∀ ns kd, generateCacheKey ns kd = ns ++ ":" ++ keyHash kd ∧
      (keyHash kd).length = 16 ∧ ∀ ch ∈ (keyHash kd).data, isHexChar ch = true) := by
  refine ⟨fun ns kd1 kd2 h => by rw [h], fun ns d1 d2 hp hnd => ?_,
    fun ns kd => ⟨rfl, keyHash_length kd, keyHash_hex kd⟩⟩
  have hks : keyString (.dict d1) = keyString (.dict d2) := keyString_dict_perm hp hnd
  simp [generateCacheKey, keyHash, hks]

/-- Witness for C8: the two-item mappings `a=1, b=2` and `b=2, a=1`
derive the same cache key. -/
theorem C8_key_derivation_canonical_witness :
    ([("a", Json.num 1), ("b", Json.num 2)].Perm [("b", Json.num 2), ("a", Json.num 1)]) ∧
    (([("a", Json.num 1), ("b", Json.num 2)].map Prod.fst).Nodup) ∧
    generateCacheKey "gemini_responses" (.dict [("a", Json.num 1), ("b", Json.num 2)]) =
      generateCacheKey "gemini_responses" (.dict [("b", Json.num 2), ("a", Json.num 1)]) :=
  ⟨List.Perm.swap ("b", Json.num 2) ("a", Json.num 1) [], by decide,
    (C8_key_derivation_canonical).2.1 "gemini_responses" _ _
      (List.Perm.swap ("b", Json.num 2) ("a", Json.num 1) []) (by decide)⟩

/-! ### Claim C9 -/

/-- C9: the `cached` decorator's wrapper consults the orchestrator's
`get` with default `None`; when it reports a present (non-`None`) value
the wrapper returns it without invoking the computation (invocation
count 0 and no further state change); when it reports absent the
wrapper invokes the computation exactly once, stores the result through
the orchestrator's `set` with the wrapper's namespace and TTL, and
returns that result. -/
theorem C9_memoization {β : Type} (sz : Option β → Nat) (c : PCache (Option β))
    (now : Nat) (ns : String) (t : Option Nat) (kd : KeyData)
    (f : Unit → Option β) (dUp fOk : Bool) :
    (∀ v, (getOp sz c now ns kd none dUp).1 = some v →
      cachedWrapper sz c now ns t kd f dUp fOk =
        (some v, 0, (getOp sz c now ns kd none dUp).2)) ∧
    ((getOp sz c now ns kd none dUp).1 = none →
      cachedWrapper sz c now ns t kd f dUp fOk =
        (f (), 1, (setOp sz (getOp sz c now ns kd none dUp).2 now ns kd (f ()) t dUp fOk).2)) := by
  constructor
  · intro v hv
    simp only [cachedWrapper]
    rw [hv]
  · intro hv
    simp only [cachedWrapper]
    rw [hv]

/-- Witness for C9: on an empty cache the lookup reports absent, so the
wrapper runs the computation once, returns its result 42 and stores it. -/
theorem C9_memoization_witness :
    (getOp (fun _ => 3) (emptyCache (α := Option Nat)) 0 "zzz" (.str "k") none false).1 = none ∧
    cachedWrapper (fun _ => 3) (emptyCache (α := Option Nat)) 0 "zzz" (some 9) (.str "k")
        (fun _ => some 42) false false =
      (some 42, 1,
        (setOp (fun _ => 3)
          (getOp (fun _ => 3) (emptyCache (α := Option Nat)) 0 "zzz" (.str "k") none false).2
          0 "zzz" (.str "k") (some 42) (some 9) false false).2) :=
  ⟨rfl,
    (C9_memoization (fun _ => 3) (emptyCache (α := Option Nat)) 0 "zzz" (some 9) (.str "k")
      (fun _ => some 42) false false).2 rfl⟩

/-! ### Claim C10 -/

/-- C10: a `get` served from the shared (Django) tier or from the
persistent (file) tier promotes the value into the memory tier as a
brand-new entry whose `created_at` is the current instant and whose TTL
is the promotion default of 3600 seconds — not the stored entry's own
TTL (which is arbitrary below) nor its remaining lifetime — so
promotion resets the memory-tier expiry clock. -/
theorem C10_promotion_resets_ttl (sz : α → Nat) (c : PCache α) (now : Nat)
    (ns : String) (kd : KeyData) (dflt : α) :
    (∀ d, findPair c.memory_cache (generateCacheKey ns kd) = none →
      findPair c.django (generateCacheKey ns kd) = some d →
      sz d ≤ configMaxSize ns →
      (getOp sz c now ns kd dflt true).1 = d ∧
      findPair (getOp sz c now ns kd dflt true).2.memory_cache (generateCacheKey ns kd) =
        some { data := d, created_at := now, accessed_at := now, access_count := 0,
               ttl := 3600, size_bytes := sz d, cache_key := generateCacheKey ns kd }) ∧
    (∀ fe, findPair c.memory_cache (generateCacheKey ns kd) = none →
      findPair c.django (generateCacheKey ns kd) = none →
      findPair c.files (generateCacheKey ns kd ++ ".pkl") = some fe →
      fe.isExpired now = false →
      sz fe.data ≤ configMaxSize ns →
      (getOp sz c now ns kd dflt true).1 = fe.data ∧
      findPair (getOp sz c now ns kd dflt true).2.memory_cache (generateCacheKey ns kd) =
        some { data := fe.data, created_at := now, accessed_at := now, access_count := 0,
               ttl := 3600, size_bytes := sz fe.data,
               cache_key := generateCacheKey ns kd }) := by
  constructor
  · intro d hmem hdj hcap
    simp only [getOp]
    rw [hmem]
    simp only [getDjangoLevel, if_true]
    rw [hdj]
    constructor
    · rfl
    · show findPair (setMemoryCache sz c (generateCacheKey ns kd) d ns 3600 now).2.memory_cache
          (generateCacheKey ns kd) = _
      rw [setMemoryCache_memory_of_cap sz c _ d ns 3600 now hcap]
      exact findPair_setPair_self _ _ _
  · intro fe hmem hdj hfile hfresh hcap
    simp only [getOp]
    rw [hmem]
    simp only [getDjangoLevel, if_true]
    rw [hdj]
    simp only [getFileLevel]
    rw [hfile]
    dsimp only
    rw [hfresh]
    simp only [Bool.false_eq_true, if_false]
    constructor
    · trivial
    · show findPair (setMemoryCache sz
            (setDjangoCache c (generateCacheKey ns kd) fe.data true).2
            (generateCacheKey ns kd) fe.data ns 3600 now).2.memory_cache
          (generateCacheKey ns kd) = _
      rw [setMemoryCache_memory_of_cap sz _ _ fe.data ns 3600 now hcap]
      exact findPair_setPair_self _ _ _

/-- Witness for C10: a persistent-tier entry with TTL 86400 stored under
a derived key is promoted on `get`; the promoted memory entry carries
TTL 3600 and `created_at` equal to the read instant 5. -/
theorem C10_promotion_resets_ttl_witness :
    findPair ([] : List (String × CacheEntry Nat)) (generateCacheKey "zzz" (.str "k")) = none ∧
    findPair ([] : List (String × Nat)) (generateCacheKey "zzz" (.str "k")) = none ∧
    findPair [(generateCacheKey "zzz" (.str "k") ++ ".pkl",
        ({ data := 7, created_at := 0, accessed_at := 0, access_count := 0,
           ttl := 86400, size_bytes := 0,
           cache_key := generateCacheKey "zzz" (.str "k") } : CacheEntry Nat))]
      (generateCacheKey "zzz" (.str "k") ++ ".pkl") =
      some { data := 7, created_at := 0, accessed_at := 0, access_count := 0,
             ttl := 86400, size_bytes := 0,
             cache_key := generateCacheKey "zzz" (.str "k") } ∧
    CacheEntry.isExpired
      ({ data := 7, created_at := 0, accessed_at := 0, access_count := 0,
         ttl := 86400, size_bytes := 0,
         cache_key := generateCacheKey "zzz" (.str "k") } : CacheEntry Nat) 5 = false ∧
    3 ≤ configMaxSize "zzz" ∧
    ((getOp (fun _ => 3)
        (⟨[], Stats.zero, 0,
          [(generateCacheKey "zzz" (.str "k") ++ ".pkl",
            { data := 7, created_at := 0, accessed_at := 0, access_count := 0,
              ttl := 86400, size_bytes := 0,
              cache_key := generateCacheKey "zzz" (.str "k") })], []⟩ : PCache Nat)
        5 "zzz" (.str "k") 0 true).1 = 7 ∧
      findPair (getOp (fun _ => 3)
        (⟨[], Stats.zero, 0,
          [(generateCacheKey "zzz" (.str "k") ++ ".pkl",
            { data := 7, created_at := 0, accessed_at := 0, access_count := 0,
              ttl := 86400, size_bytes := 0,
              cache_key := generateCacheKey "zzz" (.str "k") })], []⟩ : PCache Nat)
        5 "zzz" (.str "k") 0 true).2.memory_cache (generateCacheKey "zzz" (.str "k")) =
        some { data := 7, created_at := 5, accessed_at := 5, access_count := 0,
               ttl := 3600, size_bytes := 3,
               cache_key := generateCacheKey "zzz" (.str "k") }) :=
  ⟨rfl, rfl, by simp [findPair], rfl, by decide,
    (C10_promotion_resets_ttl (fun _ => 3)
      (⟨[], Stats.zero, 0,
        [(generateCacheKey "zzz" (.str "k") ++ ".pkl",
          { data := 7, created_at := 0, accessed_at := 0, access_count := 0,
            ttl := 86400, size_bytes := 0,
            cache_key := generateCacheKey "zzz" (.str "k") })], []⟩ : PCache Nat)
      5 "zzz" (.str "k") 0).2
      { data := 7, created_at := 0, accessed_at := 0, access_count := 0,
        ttl := 86400, size_bytes := 0, cache_key := generateCacheKey "zzz" (.str "k") }
      rfl rfl (by simp [findPair]) rfl (by decide)⟩
